import Mathlib

/-!
Verification of the Hexagonal Coverage Engine of the climate-studio
repository (qgis-processing services), as a shallow embedding in Lean 4.

Conventions of the embedding:
* Python floats are modelled as exact rationals (`ℚ`); Python `round(x, n)`
  is modelled as exact half-to-even rounding on rationals, and `int(x)` as
  truncation toward zero.
* H3 cell ids are opaque; they are modelled as naturals.  The H3 library
  functions (`cell_to_latlng`, `cell_to_boundary`, `h3shape_to_cells`) are
  external to the repository and are passed to the embedded pipelines as
  function parameters.
* The external Earth Engine reducer (`reduceRegions(...).getInfo()`) is
  modelled as an injected function returning `Except` (an `.error` models a
  raised exception / unreachable service).  Each embedded pipeline also
  returns the number of times it invoked that injected reducer.
* A reducer result property that is missing or `null` is modelled as
  `Option.none`.
-/

namespace ClimateStudio

/-- Geographic bounding box in degrees (the `bounds` dict with keys
`north`, `south`, `east`, `west`). -/
structure Bounds where
  north : ℚ
  south : ℚ
  east : ℚ
  west : ℚ
  deriving DecidableEq

/-- H3 cell identifier (opaque stable id). -/
abbrev HexId := ℕ

/-- An H3 boundary vertex `(lat, lng)` as returned by `h3.cell_to_boundary`. -/
abbrev LatLng := ℚ × ℚ

/-- A GeoJSON coordinate `[lng, lat]`. -/
abbrev LonLat := ℚ × ℚ

/-- Round half to even on the integers (Python's rounding mode). -/
def round_half_even (q : ℚ) : ℤ :=
  let f := ⌊q⌋
  let r := q - (f : ℚ)
  if r < 1/2 then f
  else if 1/2 < r then f + 1
  else if f % 2 = 0 then f else f + 1

/-- Python `round(q, ndigits)` on rationals. -/
def py_round (q : ℚ) (ndigits : ℕ) : ℚ :=
  (round_half_even (q * (10 : ℚ) ^ ndigits) : ℚ) / (10 : ℚ) ^ ndigits

/-- Python `int(q)`: truncation toward zero. -/
def py_int (q : ℚ) : ℤ :=
  if 0 ≤ q then ⌊q⌋ else -⌊-q⌋

/-- `lat_span = bounds['north'] - bounds['south']`. -/
def lat_span (b : Bounds) : ℚ := b.north - b.south

/-- `lon_span = bounds['east'] - bounds['west']`. -/
def lon_span (b : Bounds) : ℚ := b.east - b.west

/-- The `resolution_area_km2` lookup table of
`get_temperature_projection` / `get_drought_data`, including the
`.get(resolution, 240)` default. -/
def resolution_area_km2 (resolution : ℤ) : ℚ :=
  if resolution = 1 then 600000
  else if resolution = 2 then 86000
  else if resolution = 3 then 12000
  else if resolution = 4 then 1700
  else if resolution = 5 then 240
  else if resolution = 6 then 34
  else if resolution = 7 then 4.8
  else if resolution = 8 then 0.7
  else if resolution = 9 then 0.1
  else if resolution = 10 then 0.014
  else 240

/-- `bbox_area_km2 = (lat_span * 111) * (lon_span * 111)`. -/
def bbox_area_km2 (b : Bounds) : ℚ :=
  (lat_span b * 111) * (lon_span b * 111)

/-- `approx_hex_count = bbox_area_km2 / hex_area`. -/
def approx_hex_count (b : Bounds) (resolution : ℤ) : ℚ :=
  bbox_area_km2 b / resolution_area_km2 resolution

/-- `max_hexagons = 4500`: stay under Earth Engine's 5000 element limit. -/
def max_hexagons : ℚ := 4500

/-- The remedy hint interpolated into the governor's error message. -/
def zoom_remedy : String := "Please zoom in closer to see temperature data."

/-- The data interpolated into the `ValueError` message raised by the
bounding-box governor: the two spans, the estimated hexagon count and the
remedy hint. -/
structure OversizeError where
  latSpan : ℚ
  lonSpan : ℚ
  approxCount : ℚ
  remedy : String
  deriving DecidableEq

/-- The bounding-box safety governor at the head of
`get_temperature_projection` (and, identically, `get_drought_data`):
reject exactly when `approx_hex_count > max_hexagons`. -/
def estimate_and_validate (b : Bounds) (resolution : ℤ) :
    Except OversizeError Unit :=
  if approx_hex_count b resolution > max_hexagons then
    .error ⟨lat_span b, lon_span b, approx_hex_count b resolution, zoom_remedy⟩
  else
    .ok ()

/-- `Except.isOk` as a plain boolean. -/
def exceptOk {ε α : Type} : Except ε α → Bool
  | .ok _ => true
  | .error _ => false

/-- Close a GeoJSON ring by repeating its first coordinate at the end
(`coordinates[0].append(coordinates[0][0])`).  On an empty list the Python
code would raise an `IndexError`; H3 boundaries are never empty. -/
def close_ring : List LonLat → List LonLat
  | [] => []
  | c :: cs => (c :: cs) ++ [c]

/-- `[[lng, lat] for lat, lng in boundary]`, then closed: the (lat, lng)
boundary swapped into GeoJSON (lng, lat) order, first vertex repeated at
the end. -/
def boundary_to_ring (boundary : List LatLng) : List LonLat :=
  close_ring (boundary.map (fun v => (v.2, v.1)))

/-- `BASELINE_TEMP_C = 14.5` (1986-2005 average). -/
def BASELINE_TEMP_C : ℚ := 14.5

/-- `DEFAULT_MODEL = "ACCESS-CM2"`. -/
def DEFAULT_MODEL : String := "ACCESS-CM2"

/-- The `SCENARIOS` RCP→SSP map, with the `.get(scenario, 'ssp245')`
default. -/
def scenarios_map (scenario : String) : String :=
  if scenario = "rcp26" then "ssp126"
  else if scenario = "rcp45" then "ssp245"
  else if scenario = "rcp85" then "ssp585"
  else "ssp245"

/-- One element of the `reduceRegions` result: the hexagon id tag and the
`mean` property (`none` models a missing or `null` value). -/
structure EEFeature where
  hexId : HexId
  mean : Option ℚ
  deriving DecidableEq

end ClimateStudio

namespace ClimateStudio.Nasa

open ClimateStudio

/-- One entry of the `hexagon_data` list built by
`NASAEEClimateService._convert_hexagon_features_to_geojson`. -/
structure HexagonDatum where
  hex_id : HexId
  lat : ℚ
  lon : ℚ
  boundary : List LatLng
  temp_anomaly : ℚ
  temp_anomaly_f : ℚ
  deriving DecidableEq

/-- The body run for a hexagon with a present `mean` value: Kelvin to
Celsius, anomaly against the baseline, rounded to 2 decimals. -/
def mk_datum (cellToLatLng : HexId → LatLng) (cellToBoundary : HexId → List LatLng)
    (hexId : HexId) (tasmax_k : ℚ) : HexagonDatum :=
  let latlon := cellToLatLng hexId
  let temp_c := tasmax_k - 273.15
  let anomaly := temp_c - BASELINE_TEMP_C
  { hex_id := hexId
    lat := latlon.1
    lon := latlon.2
    boundary := cellToBoundary hexId
    temp_anomaly := py_round anomaly 2
    temp_anomaly_f := py_round (anomaly * 1.8) 2 }

/-- The filtering loop of `_convert_hexagon_features_to_geojson`: hexagons
whose `mean` is missing or `null` are skipped and counted
(`missing_count`); no interpolation is applied. -/
def filter_features (ctl : HexId → LatLng) (ctb : HexId → List LatLng) :
    List EEFeature → List HexagonDatum × ℕ
  | [] => ([], 0)
  | f :: rest =>
    let tail := filter_features ctl ctb rest
    match f.mean with
    | none => (tail.1, tail.2 + 1)
    | some tasmax_k => (mk_datum ctl ctb f.hexId tasmax_k :: tail.1, tail.2)

/-- Properties of one emitted temperature feature. -/
structure FeatureProps where
  hexId : HexId
  lat : ℚ
  lon : ℚ
  tempAnomaly : ℚ
  tempAnomalyF : ℚ
  projected : ℚ
  scenario : String
  sspScenario : String
  year : ℤ
  model : String
  deriving DecidableEq, Inhabited

/-- One emitted GeoJSON feature: a polygon ring plus properties. -/
structure Feature where
  ring : List LonLat
  props : FeatureProps
  deriving DecidableEq, Inhabited

/-- The top-level `metadata` object of the temperature FeatureCollection. -/
structure Metadata where
  source : String
  model : String
  scenario : String
  year : ℤ
  baselineTemp : ℚ
  count : ℕ
  isRealData : Bool
  dataType : String
  deriving DecidableEq

/-- The emitted FeatureCollection. -/
structure FeatureCollection where
  features : List Feature
  metadata : Metadata
  deriving DecidableEq

/-- `NASAEEClimateService._to_geojson`. -/
def to_geojson (hexagons : List HexagonDatum) (year : ℤ)
    (scenario ssp_scenario : String) : FeatureCollection :=
  let features := hexagons.map (fun hd =>
    { ring := boundary_to_ring hd.boundary
      props := { hexId := hd.hex_id
                 lat := py_round hd.lat 4
                 lon := py_round hd.lon 4
                 tempAnomaly := hd.temp_anomaly
                 tempAnomalyF := hd.temp_anomaly_f
                 projected := py_round (BASELINE_TEMP_C + hd.temp_anomaly) 2
                 scenario := scenario
                 sspScenario := ssp_scenario
                 year := year
                 model := DEFAULT_MODEL } : Feature })
  { features := features
    metadata := { source := "NASA NEX-GDDP-CMIP6 via Earth Engine"
                  model := DEFAULT_MODEL
                  scenario := ssp_scenario
                  year := year
                  baselineTemp := BASELINE_TEMP_C
                  count := features.length
                  isRealData := true
                  dataType := "real" } }

/-- `NASAEEClimateService._convert_hexagon_features_to_geojson`. -/
def convert_hexagon_features_to_geojson (ctl : HexId → LatLng)
    (ctb : HexId → List LatLng) (features : List EEFeature) (year : ℤ)
    (scenario ssp_scenario : String) : FeatureCollection :=
  to_geojson (filter_features ctl ctb features).1 year scenario ssp_scenario

/-- The `buffer_factors` table of
`NASAEEClimateService._get_hexagons_in_bounds`, with the
`.get(resolution, 0.50)` default. -/
def buffer_factors (resolution : ℤ) : ℚ :=
  if resolution = 1 then 1.0
  else if resolution = 2 then 1.0
  else if resolution = 3 then 0.9
  else if resolution = 4 then 0.85
  else if resolution = 5 then 0.75
  else if resolution = 6 then 0.65
  else if resolution = 7 then 0.55
  else if resolution = 8 then 0.45
  else if resolution = 9 then 0.35
  else if resolution = 10 then 0.25
  else 0.50

/-- The bounds expansion of `_get_hexagons_in_bounds`: each side pushed out
by `buffer_factor` times the corresponding span, latitude clamped to
[-90, 90], longitude not clamped. -/
def buffered_bounds (b : Bounds) (resolution : ℤ) : Bounds :=
  let bf := buffer_factors resolution
  let lat_buffer := lat_span b * bf
  let lon_buffer := lon_span b * bf
  { north := min 90 (b.north + lat_buffer)
    south := max (-90) (b.south - lat_buffer)
    east := b.east + lon_buffer
    west := b.west - lon_buffer }

/-- The errors `get_temperature_projection` can raise. -/
inductive PipelineError where
  | notInitialized : PipelineError
  | boundsTooLarge : OversizeError → PipelineError
  | noImages : PipelineError
  | reducerFailed : String → PipelineError
  | noData : PipelineError
  deriving DecidableEq

/-- The binding/assembly tail of `get_temperature_projection`: one batched
`reduceRegions(...).getInfo()` call over all generated hexagons (the
returned natural counts reducer invocations), the empty-result check, then
conversion to GeoJSON.  A reducer exception re-raises unmodified. -/
def bind_and_assemble (ctl : HexId → LatLng) (ctb : HexId → List LatLng)
    (hex_ids : List HexId)
    (reduce_regions : List HexId → Except String (List EEFeature))
    (year : ℤ) (scenario ssp_scenario : String) :
    Except PipelineError FeatureCollection × ℕ :=
  match reduce_regions hex_ids with
  | .error msg => (.error (.reducerFailed msg), 1)
  | .ok features =>
    if features.length = 0 then (.error .noData, 1)
    else (.ok (convert_hexagon_features_to_geojson ctl ctb features year scenario ssp_scenario), 1)

/-- `NASAEEClimateService.get_temperature_projection`, with the external
collaborators injected: `image_count` is the `filtered.size().getInfo()`
result, `generate` is the H3 tessellation (applied by the source to the
buffered bounds), `reduce_regions` the batched Earth Engine reducer. -/
def get_temperature_projection (initialized : Bool) (b : Bounds) (year : ℤ)
    (scenario : String) (resolution : ℤ) (image_count : ℕ)
    (generate : Bounds → ℤ → List HexId)
    (reduce_regions : List HexId → Except String (List EEFeature))
    (ctl : HexId → LatLng) (ctb : HexId → List LatLng) :
    Except PipelineError FeatureCollection × ℕ :=
  if initialized = false then (.error .notInitialized, 0)
  else if approx_hex_count b resolution > max_hexagons then
    (.error (.boundsTooLarge
      ⟨lat_span b, lon_span b, approx_hex_count b resolution, zoom_remedy⟩), 0)
  else if image_count = 0 then (.error .noImages, 0)
  else
    bind_and_assemble ctl ctb (generate (buffered_bounds b resolution) resolution)
      reduce_regions year scenario (scenarios_map scenario)

end ClimateStudio.Nasa

namespace ClimateStudio.UHI

open ClimateStudio

/-- `resolution = max(0, min(15, resolution))` in `get_heat_island_data`. -/
def clamp_resolution (r : ℤ) : ℤ := max 0 (min 15 r)

/-- `UrbanHeatIslandService._classify_level`. -/
def classify_level (intensity : ℚ) : String :=
  if intensity < 0.5 then "none"
  else if intensity < 1.5 then "low"
  else if intensity < 3.0 then "moderate"
  else if intensity < 4.5 then "high"
  else "extreme"

/-- One entry of the `hexagons` list built by `get_heat_island_data`. -/
structure HexSample where
  hex_id : HexId
  center : LonLat
  boundary : List LatLng
  intensity : ℚ
  level : String
  deriving DecidableEq

/-- Properties of one emitted heat-island feature. -/
structure FeatureProps where
  hex_id : HexId
  heatIslandIntensity : ℚ
  level : String
  center : LonLat
  resolution : ℤ
  deriving DecidableEq

/-- One emitted GeoJSON feature. -/
structure Feature where
  ring : List LonLat
  props : FeatureProps
  deriving DecidableEq

/-- The heat-island `metadata` dict: a successful run carries date,
resolution and count; `_empty_geojson` carries an `error` entry and
count 0.  Neither shape has an `isRealData` entry. -/
inductive Metadata where
  | ok (date : String) (resolution : ℤ) (count : ℕ) (source : String)
  | failed (error : String) (count : ℕ)
  deriving DecidableEq

/-- The emitted FeatureCollection. -/
structure FeatureCollection where
  features : List Feature
  metadata : Metadata
  deriving DecidableEq

/-- `UrbanHeatIslandService._empty_geojson`. -/
def empty_geojson : FeatureCollection :=
  { features := [], metadata := .failed "Could not fetch UHI data" 0 }

/-- The per-cell sampling loop of `get_heat_island_data`: one
`sample(point, 300)...getInfo()` round trip per hexagon (the returned
natural counts sampler invocations).  A sampler exception, or a missing /
NaN intensity, silently skips the cell (`except: pass`). -/
def sample_cells (ctl : HexId → LatLng) (ctb : HexId → List LatLng)
    (sampler : HexId → Except String (Option ℚ)) :
    List HexId → List HexSample × ℕ
  | [] => ([], 0)
  | h :: rest =>
    let tail := sample_cells ctl ctb sampler rest
    match sampler h with
    | .error _ => (tail.1, tail.2 + 1)
    | .ok none => (tail.1, tail.2 + 1)
    | .ok (some intensity) =>
      let latlon := ctl h
      ({ hex_id := h
         center := (latlon.2, latlon.1)
         boundary := ctb h
         intensity := py_round intensity 2
         level := classify_level intensity } :: tail.1, tail.2 + 1)

/-- `UrbanHeatIslandService._to_geojson`. -/
def to_geojson (hexagons : List HexSample) (date : Option String)
    (today : String) (resolution : ℤ) : FeatureCollection :=
  let features := hexagons.map (fun hd =>
    { ring := boundary_to_ring hd.boundary
      props := { hex_id := hd.hex_id
                 heatIslandIntensity := hd.intensity
                 level := hd.level
                 center := hd.center
                 resolution := resolution } : Feature })
  { features := features
    metadata := .ok (date.getD today) resolution features.length
      "Yale YCEO Urban Heat Island (Summer UHI v4)" }

/-- `UrbanHeatIslandService.get_heat_island_data`: when Earth Engine is
uninitialized, or the dataset access inside the `try` fails, the service
returns `_empty_geojson()` instead of raising; otherwise the resolution is
silently clamped into [0, 15] and every generated hexagon is sampled
individually. -/
def get_heat_island_data (initialized dataset_ok : Bool)
    (hex_ids : List HexId) (ctl : HexId → LatLng) (ctb : HexId → List LatLng)
    (sampler : HexId → Except String (Option ℚ))
    (date : Option String) (today : String) (resolution : ℤ) :
    FeatureCollection × ℕ :=
  if initialized = false then (empty_geojson, 0)
  else if dataset_ok = false then (empty_geojson, 0)
  else
    let r := clamp_resolution resolution
    let s := sample_cells ctl ctb sampler hex_ids
    (to_geojson s.1 date today r, s.2)

end ClimateStudio.UHI

namespace ClimateStudio.Metro

open ClimateStudio

/-- The four metrics computed per city by `_fetch_climate_data` /
`_get_fallback_metrics`. -/
structure Metrics where
  peak_humidity : ℤ
  wet_bulb_events : ℤ
  humid_temp : ℤ
  days_over_100 : ℤ
  deriving DecidableEq

/-- `year_factor = (year - 2025) / 100.0`. -/
def year_factor (year : ℤ) : ℚ := ((year : ℚ) - 2025) / 100

/-- `MetroHumidityService._get_fallback_metrics`: a synthetic linear
projection fabricated without any external data. -/
def get_fallback_metrics (year : ℤ) : Metrics :=
  { peak_humidity := py_int (50 + year_factor year * 30)
    wet_bulb_events := py_int (10 + year_factor year * 50)
    humid_temp := py_int (115 + year_factor year * 40)
    days_over_100 := py_int (30 + year_factor year * 80) }

/-- One entry of the `METRO_CITIES` table. -/
structure City where
  name : String
  lat : ℚ
  lng : ℚ
  deriving DecidableEq

/-- The `METRO_CITIES` coordinate table. -/
def METRO_CITIES : List City :=
  [⟨"Baltimore", 39.2904, -76.6122⟩,
   ⟨"Houston", 29.7604, -95.3698⟩,
   ⟨"Miami", 25.7617, -80.1918⟩,
   ⟨"Phoenix", 33.4484, -112.0740⟩,
   ⟨"New York", 40.7128, -74.0060⟩,
   ⟨"Chicago", 41.8781, -87.6298⟩,
   ⟨"Los Angeles", 34.0522, -118.2437⟩,
   ⟨"Atlanta", 33.7490, -84.3880⟩]

/-- One emitted point feature of the metro-humidity FeatureCollection. -/
structure CityFeature where
  city : String
  lat : ℚ
  lng : ℚ
  year : ℤ
  metrics : Metrics
  deriving DecidableEq

/-- The metro-humidity FeatureCollection (its `name` is the only
top-level marker; there is no `isRealData` entry on any path). -/
structure FeatureCollection where
  name : String
  features : List CityFeature
  deriving DecidableEq

/-- `MetroHumidityService._fetch_climate_data`, which catches every Earth
Engine failure itself and silently substitutes `_get_fallback_metrics`
(`fetch c = none` models a raised exception on the way). -/
def fetch_climate_data (fetch : City → Option Metrics) (year : ℤ)
    (c : City) : Metrics :=
  (fetch c).getD (get_fallback_metrics year)

/-- `MetroHumidityService._get_fallback_data`. -/
def get_fallback_data (year : ℤ) : FeatureCollection :=
  { name := "Metro Humidity Statistics (Fallback)"
    features := METRO_CITIES.map (fun c =>
      ⟨c.name, c.lat, c.lng, year, get_fallback_metrics year⟩) }

/-- `MetroHumidityService.get_metro_humidity_projections`: uninitialized
Earth Engine yields the complete fallback dataset; otherwise each city's
metrics come from `_fetch_climate_data`, which never raises. -/
def get_metro_humidity_projections (initialized : Bool) (year : ℤ)
    (fetch : City → Option Metrics) : FeatureCollection :=
  if initialized = false then get_fallback_data year
  else
    { name := "Metro Humidity Statistics"
      features := METRO_CITIES.map (fun c =>
        ⟨c.name, c.lat, c.lng, year, fetch_climate_data fetch year c⟩) }

end ClimateStudio.Metro

namespace ClimateStudio.Grace

open ClimateStudio

/-- `GRACEGroundwaterService.DATASET_ID`. -/
def DATASET_ID : String := "NASA/GRACE/MASS_GRIDS_V04/MASCON_CRI"

/-- One element of the trend `reduceRegions` result. -/
structure TrendFeature where
  hexId : HexId
  mean : Option ℚ
  deriving DecidableEq

/-- `GRACEGroundwaterService._classify_depletion`. -/
def classify_depletion (trend_cm_per_year : ℚ) : String :=
  if trend_cm_per_year < -2 then "severe_depletion"
  else if trend_cm_per_year < -0.5 then "moderate_depletion"
  else if trend_cm_per_year < 0.5 then "stable"
  else "recharge"

/-- One entry of the `hexagon_data` list built by `_convert_to_geojson`. -/
structure HexagonDatum where
  hex_id : HexId
  lat : ℚ
  lon : ℚ
  boundary : List LatLng
  trend_cm_per_year : ℚ
  total_change_cm : ℚ
  status : String
  deriving DecidableEq

/-- The filtering loop of `_convert_to_geojson`: a hexagon is dropped and
counted as missing when its trend `mean` is missing/`null` or when
`change_dict` has no value for it. -/
def filter_features (ctl : HexId → LatLng) (ctb : HexId → List LatLng)
    (change_dict : HexId → Option ℚ) :
    List TrendFeature → List HexagonDatum × ℕ
  | [] => ([], 0)
  | f :: rest =>
    let tail := filter_features ctl ctb change_dict rest
    match f.mean with
    | none => (tail.1, tail.2 + 1)
    | some trend =>
      match change_dict f.hexId with
      | none => (tail.1, tail.2 + 1)
      | some total =>
        let latlon := ctl f.hexId
        ({ hex_id := f.hexId
           lat := latlon.1
           lon := latlon.2
           boundary := ctb f.hexId
           trend_cm_per_year := py_round trend 2
           total_change_cm := py_round total 2
           status := classify_depletion trend } :: tail.1, tail.2)

/-- Properties of one emitted groundwater feature. -/
structure FeatureProps where
  hexId : HexId
  lat : ℚ
  lon : ℚ
  trendCmPerYear : ℚ
  totalChangeCm : ℚ
  status : String
  aquifer : String
  deriving DecidableEq

/-- One emitted GeoJSON feature. -/
structure Feature where
  ring : List LonLat
  props : FeatureProps
  deriving DecidableEq

/-- The top-level `metadata` of the groundwater FeatureCollection. -/
structure Metadata where
  source : String
  dataset : String
  temporalCoverage : String
  aquifer : String
  count : ℕ
  isRealData : Bool
  deriving DecidableEq

/-- The emitted FeatureCollection. -/
structure FeatureCollection where
  features : List Feature
  metadata : Metadata
  deriving DecidableEq

/-- `GRACEGroundwaterService._to_geojson`. -/
def to_geojson (hexagons : List HexagonDatum) (aquifer_id : String) :
    FeatureCollection :=
  let features := hexagons.map (fun hd =>
    { ring := boundary_to_ring hd.boundary
      props := { hexId := hd.hex_id
                 lat := py_round hd.lat 4
                 lon := py_round hd.lon 4
                 trendCmPerYear := hd.trend_cm_per_year
                 totalChangeCm := hd.total_change_cm
                 status := hd.status
                 aquifer := aquifer_id } : Feature })
  { features := features
    metadata := { source := "NASA GRACE via Earth Engine"
                  dataset := DATASET_ID
                  temporalCoverage := "2002-04-01 to 2024-09-30"
                  aquifer := aquifer_id
                  count := features.length
                  isRealData := true } }

/-- `GRACEGroundwaterService._convert_to_geojson`. -/
def convert_to_geojson (ctl : HexId → LatLng) (ctb : HexId → List LatLng)
    (trend_features : List TrendFeature) (change_dict : HexId → Option ℚ)
    (aquifer_id : String) : FeatureCollection :=
  to_geojson (filter_features ctl ctb change_dict trend_features).1 aquifer_id

/-- The cap of `get_groundwater_depletion_viewport`: if more than 5000
hexagons were generated, replace them with `random.sample(hex_ids, 5000)`
(modelled by the injected `sample` choice). -/
def limit_hexagons (sample : List HexId → List HexId)
    (hex_ids : List HexId) : List HexId :=
  if hex_ids.length > 5000 then sample hex_ids else hex_ids

/-- The outcomes `random.sample(hex_ids, 5000)` can produce: 5000 of the
given ids. -/
def ValidSample (hex_ids sampled : List HexId) : Prop :=
  sampled.length = 5000 ∧ sampled ⊆ hex_ids

/-- `GRACEGroundwaterService.get_groundwater_depletion_viewport`: no
bounding-box governor runs; the generated cells are capped by random
sampling, bound through two batched reducers (trend and change), and
converted; reducer failures re-raise. -/
def get_groundwater_depletion_viewport (initialized : Bool)
    (hex_ids : List HexId) (sample : List HexId → List HexId)
    (trend_reducer : List HexId → Except String (List TrendFeature))
    (change_reducer : List HexId → Except String (HexId → Option ℚ))
    (ctl : HexId → LatLng) (ctb : HexId → List LatLng) :
    Except String FeatureCollection :=
  if initialized = false then .error "Earth Engine not initialized"
  else
    let ids := limit_hexagons sample hex_ids
    match trend_reducer ids with
    | .error e => .error e
    | .ok trend_features =>
      match change_reducer ids with
      | .error e => .error e
      | .ok change_dict =>
        .ok (convert_to_geojson ctl ctb trend_features change_dict "viewport")

end ClimateStudio.Grace

namespace ClimateStudio.Server

open ClimateStudio

/-- The parameter validation ladder of the `/api/climate/temperature-projection`
handler in `climate_server.py` (bounds, year, scenario, then resolution);
`some msg` is the 400 response's error string. -/
def validate_temperature_request (north south east west : ℚ) (year : ℤ)
    (scenario : String) (resolution : ℤ) : Option String :=
  if ¬(-90 ≤ south ∧ south < north ∧ north ≤ 90) then
    some "Invalid latitude bounds"
  else if ¬(-180 ≤ west ∧ west < east ∧ east ≤ 180) then
    some "Invalid longitude bounds"
  else if ¬(2020 ≤ year ∧ year ≤ 2100) then
    some "Year must be between 2020 and 2100"
  else if ¬(scenario = "rcp26" ∨ scenario = "rcp45" ∨ scenario = "rcp85") then
    some "Scenario must be one of: rcp26, rcp45, rcp85"
  else if ¬(1 ≤ resolution ∧ resolution ≤ 10) then
    some "Resolution must be between 1 and 10"
  else
    none

/-- The merged metadata built by the `aquifer=all` branch of the
groundwater endpoint. -/
structure CombinedMetadata where
  source : String
  aquifers : String
  count : ℕ
  isRealData : Bool
  deriving DecidableEq

/-- The `aquifer=all` merge of the groundwater endpoint: concatenate the
per-aquifer features and stamp the combined metadata. -/
def groundwater_all_merge (results : List Grace.FeatureCollection) :
    List Grace.Feature × CombinedMetadata :=
  let all_features := (results.map (fun r => r.features)).flatten
  (all_features,
   { source := "NASA GRACE via Earth Engine"
     aquifers := "all"
     count := all_features.length
     isRealData := true })

end ClimateStudio.Server

namespace ClimateStudio

/-- A concrete stand-in for `h3.cell_to_latlng`, used to instantiate the
pipelines on concrete inputs. -/
def demo_ctl : HexId → LatLng := fun h => ((h : ℚ), (h : ℚ) + 1)

/-- A concrete stand-in for `h3.cell_to_boundary` (a three-vertex
boundary), used to instantiate the pipelines on concrete inputs. -/
def demo_ctb : HexId → List LatLng :=
  fun h => [((h : ℚ), (h : ℚ) + 1), ((h : ℚ) + 2, (h : ℚ) + 3), ((h : ℚ) + 4, (h : ℚ) + 5)]

/-- The id list of a viewport that generates 5001 hexagons. -/
def ids5001 : List HexId := List.range 5001

/-- One outcome `random.sample` can produce on 5001 ids: the first 5000. -/
def sample_take : List HexId → List HexId := fun l => l.take 5000

/-- Another outcome `random.sample` can produce: all but the first. -/
def sample_drop : List HexId → List HexId := fun l => l.drop 1

/-- A succeeding trend reducer resolving every requested cell. -/
def demo_trend_reducer : List HexId → Except String (List Grace.TrendFeature) :=
  fun ids => .ok (ids.map (fun i => ⟨i, some 1⟩))

/-- A succeeding change reducer resolving every cell. -/
def demo_change_reducer : List HexId → Except String (HexId → Option ℚ) :=
  fun _ => .ok (fun _ => some 1)

/-- C1: the bounding-box safety governor, run before any cell generation
or external reducer call, estimates the cell count as
`(lat_span*111)*(lon_span*111) / resolution_area_km2` and rejects exactly
when that estimate exceeds `max_hexagons = 4500`, raising an error that
names the two spans and advises zooming in; a 50°×50° box at resolution 7
(cell area 4.8 km²) is rejected and a 1°×1° box at resolution 5 (cell
area 240 km²) is accepted. -/
theorem C1_governor_estimate_and_reject (b : Bounds) (r : ℤ) (year : ℤ)
    (scenario : String) (image_count : ℕ) (generate : Bounds → ℤ → List HexId)
    (reduce_regions : List HexId → Except String (List EEFeature))
    (ctl : HexId → LatLng) (ctb : HexId → List LatLng) :
    (exceptOk (estimate_and_validate b r) = false ↔
      approx_hex_count b r > max_hexagons)
    ∧ (∀ e, estimate_and_validate b r = .error e →
        e.latSpan = lat_span b ∧ e.lonSpan = lon_span b ∧
        e.approxCount = approx_hex_count b r ∧ e.remedy = zoom_remedy)
    ∧ (approx_hex_count b r > max_hexagons →
        Nasa.get_temperature_projection true b year scenario r image_count
            generate reduce_regions ctl ctb =
          (.error (.boundsTooLarge
            ⟨lat_span b, lon_span b, approx_hex_count b r, zoom_remedy⟩), 0))
    ∧ exceptOk (estimate_and_validate ⟨25, -25, 25, -25⟩ 7) = false
    ∧ exceptOk (estimate_and_validate ⟨1, 0, 1, 0⟩ 5) = true := by
  refine ⟨?_, ?_, ?_, ?_, ?_⟩
  · by_cases h : approx_hex_count b r > max_hexagons <;>
      simp [estimate_and_validate, exceptOk, h]
  · intro e he
    by_cases h : approx_hex_count b r > max_hexagons
    · simp only [estimate_and_validate, if_pos h] at he
      cases he
      exact ⟨rfl, rfl, rfl, rfl⟩
    · simp [estimate_and_validate, if_neg h] at he
  · intro h
    simp [Nasa.get_temperature_projection, h]
  · norm_num [estimate_and_validate, exceptOk, approx_hex_count,
      bbox_area_km2, lat_span, lon_span, resolution_area_km2, max_hexagons]
  · norm_num [estimate_and_validate, exceptOk, approx_hex_count,
      bbox_area_km2, lat_span, lon_span, resolution_area_km2, max_hexagons]

/-- Witness for C1 at a concrete 50°×50° box at resolution 7: the error
names both spans, and the whole pipeline rejects with zero reducer calls. -/
theorem C1_governor_estimate_and_reject_witness :
    (estimate_and_validate ⟨25, -25, 25, -25⟩ 7 =
      .error ⟨lat_span ⟨25, -25, 25, -25⟩, lon_span ⟨25, -25, 25, -25⟩,
        approx_hex_count ⟨25, -25, 25, -25⟩ 7, zoom_remedy⟩ →
      (⟨lat_span ⟨25, -25, 25, -25⟩, lon_span ⟨25, -25, 25, -25⟩,
        approx_hex_count ⟨25, -25, 25, -25⟩ 7, zoom_remedy⟩ :
          OversizeError).latSpan = lat_span ⟨25, -25, 25, -25⟩)
    ∧ Nasa.get_temperature_projection true ⟨25, -25, 25, -25⟩ 2050 "rcp45" 7 1
        (fun _ _ => []) (fun _ => .ok []) (fun _ => (0, 0)) (fun _ => []) =
      (.error (.boundsTooLarge
        ⟨lat_span ⟨25, -25, 25, -25⟩, lon_span ⟨25, -25, 25, -25⟩,
         approx_hex_count ⟨25, -25, 25, -25⟩ 7, zoom_remedy⟩), 0) := by
  have hgt : approx_hex_count ⟨25, -25, 25, -25⟩ 7 > max_hexagons := by
    norm_num [approx_hex_count, bbox_area_km2, lat_span, lon_span,
      resolution_area_km2, max_hexagons]
  have h := C1_governor_estimate_and_reject ⟨25, -25, 25, -25⟩ 7 2050 "rcp45" 1
    (fun _ _ => []) (fun _ => .ok []) (fun _ => (0, 0)) (fun _ => [])
  exact ⟨fun he => (h.2.1 _ he).1, h.2.2.1 hgt⟩

end ClimateStudio

namespace ClimateStudio

/-- The feature ids emitted by the NASA assembler are the datum ids. -/
theorem nasa_to_geojson_hexIds (hexs : List Nasa.HexagonDatum) (year : ℤ)
    (scenario ssp : String) :
    (Nasa.to_geojson hexs year scenario ssp).features.map (fun f => f.props.hexId) =
      hexs.map (fun hd => hd.hex_id) := by
  simp only [Nasa.to_geojson, List.map_map]
  rfl

/-- The NASA filtering pass keeps exactly the cells with a present value. -/
theorem nasa_filter_hexIds (ctl : HexId → LatLng) (ctb : HexId → List LatLng)
    (feats : List EEFeature) :
    (Nasa.filter_features ctl ctb feats).1.map (fun hd => hd.hex_id) =
      (feats.filter (fun f => f.mean.isSome)).map (fun f => f.hexId) := by
  induction feats with
  | nil => rfl
  | cons f rest ih => cases h : f.mean <;> simp [Nasa.filter_features, h, ih, Nasa.mk_datum]

/-- The NASA missing counter counts exactly the absent cells. -/
theorem nasa_filter_missing_count (ctl : HexId → LatLng) (ctb : HexId → List LatLng)
    (feats : List EEFeature) :
    (Nasa.filter_features ctl ctb feats).2 =
      feats.countP (fun f => f.mean.isNone) := by
  induction feats with
  | nil => rfl
  | cons f rest ih => cases h : f.mean <;> simp [Nasa.filter_features, h, ih, List.countP_cons]

/-- The GRACE feature ids emitted by the assembler are the datum ids. -/
theorem grace_to_geojson_hexIds (hexs : List Grace.HexagonDatum) (aq : String) :
    (Grace.to_geojson hexs aq).features.map (fun f => f.props.hexId) =
      hexs.map (fun hd => hd.hex_id) := by
  simp only [Grace.to_geojson, List.map_map]
  rfl

/-- The GRACE filtering pass keeps exactly the cells resolved by both
reducers. -/
theorem grace_filter_hexIds (ctl : HexId → LatLng) (ctb : HexId → List LatLng)
    (change_dict : HexId → Option ℚ) (trend_feats : List Grace.TrendFeature) :
    (Grace.filter_features ctl ctb change_dict trend_feats).1.map (fun hd => hd.hex_id) =
      (trend_feats.filter
        (fun f => f.mean.isSome && (change_dict f.hexId).isSome)).map (fun f => f.hexId) := by
  induction trend_feats with
  | nil => rfl
  | cons f rest ih =>
    cases h : f.mean with
    | none => simp [Grace.filter_features, h, ih]
    | some t =>
      cases hc : change_dict f.hexId <;> simp [Grace.filter_features, h, hc, ih]

/-- The GRACE missing counter counts exactly the unresolved cells. -/
theorem grace_filter_missing_count (ctl : HexId → LatLng) (ctb : HexId → List LatLng)
    (change_dict : HexId → Option ℚ) (trend_feats : List Grace.TrendFeature) :
    (Grace.filter_features ctl ctb change_dict trend_feats).2 =
      trend_feats.countP
        (fun f => !(f.mean.isSome && (change_dict f.hexId).isSome)) := by
  induction trend_feats with
  | nil => rfl
  | cons f rest ih =>
    cases h : f.mean with
    | none => simp [Grace.filter_features, h, ih, List.countP_cons]
    | some t =>
      cases hc : change_dict f.hexId <;>
        simp [Grace.filter_features, h, hc, ih, List.countP_cons]

/-- C2 counterexample: a cell whose reducer value is absent is dropped by
the conversion pass even though another cell of the same batch (its
neighbor) is resolved; it does not appear in the output with the mean of
its resolved neighbors, because the code applies no interpolation at all. -/
theorem C2_interpolate_counterexample :
    ((Nasa.filter_features demo_ctl demo_ctb [⟨0, some 300⟩, ⟨1, none⟩]).1.map
        (fun hd => hd.hex_id) = [0])
    ∧ ((Nasa.filter_features demo_ctl demo_ctb [⟨0, some 300⟩, ⟨1, none⟩]).2 = 1)
    ∧ ((Nasa.convert_hexagon_features_to_geojson demo_ctl demo_ctb
          [⟨0, some 300⟩, ⟨1, none⟩] 2050 "rcp45" "ssp245").features.map
        (fun f => f.props.hexId) = [0]) := by
  refine ⟨?_, ?_, ?_⟩ <;>
    simp [Nasa.filter_features, Nasa.convert_hexagon_features_to_geojson,
      Nasa.to_geojson, Nasa.mk_datum]

/-- C2 (as amended): the completeness policy of the conversion pass is
EXCLUDE only - a cell whose reducer value is absent is dropped regardless
of its resolved neighbors, and every kept cell's datum is computed from
that cell's own reducer value; no neighbor-mean interpolation exists. -/
theorem C2_no_interpolation (ctl : HexId → LatLng) (ctb : HexId → List LatLng)
    (feats : List EEFeature) :
    (Nasa.filter_features ctl ctb feats).1 =
      feats.filterMap (fun f => f.mean.map (Nasa.mk_datum ctl ctb f.hexId)) := by
  induction feats with
  | nil => rfl
  | cons f rest ih => cases h : f.mean <;> simp [Nasa.filter_features, h, ih]

/-- C3: under the EXCLUDE policy, a cell whose reducer value is absent
(missing or null) never appears in the output FeatureCollection, and the
missing count reported once per call equals exactly the number of absent
cells of the batch - for the NASA temperature conversion and the GRACE
groundwater conversion alike. -/
theorem C3_exclude_policy (ctl : HexId → LatLng) (ctb : HexId → List LatLng)
    (feats : List EEFeature) (year : ℤ) (scenario ssp : String)
    (change_dict : HexId → Option ℚ) (trend_feats : List Grace.TrendFeature)
    (aq : String) :
    ((Nasa.convert_hexagon_features_to_geojson ctl ctb feats year scenario ssp).features.map
        (fun f => f.props.hexId) =
      (feats.filter (fun f => f.mean.isSome)).map (fun f => f.hexId))
    ∧ ((Nasa.filter_features ctl ctb feats).2 =
        feats.countP (fun f => f.mean.isNone))
    ∧ ((Grace.convert_to_geojson ctl ctb trend_feats change_dict aq).features.map
        (fun f => f.props.hexId) =
      (trend_feats.filter
        (fun f => f.mean.isSome && (change_dict f.hexId).isSome)).map (fun f => f.hexId))
    ∧ ((Grace.filter_features ctl ctb change_dict trend_feats).2 =
        trend_feats.countP
          (fun f => !(f.mean.isSome && (change_dict f.hexId).isSome))) :=
  ⟨by rw [Nasa.convert_hexagon_features_to_geojson, nasa_to_geojson_hexIds,
      nasa_filter_hexIds],
   nasa_filter_missing_count ctl ctb feats,
   by rw [Grace.convert_to_geojson, grace_to_geojson_hexIds, grace_filter_hexIds],
   grace_filter_missing_count ctl ctb change_dict trend_feats⟩

end ClimateStudio

namespace ClimateStudio

/-- C4: every feature emitted by a GeoJSON assembler (NASA temperature and
urban heat island alike) carries the ring of its cell's boundary; for a
nonempty boundary the ring is the boundary with every (lat, lng) vertex
swapped into [lng, lat] order, explicitly closed by repeating the first
vertex, so its last element equals its first. -/
theorem C4_ring_closed_lonlat (hexs : List Nasa.HexagonDatum) (year : ℤ)
    (scenario ssp : String) (uhexs : List UHI.HexSample)
    (date : Option String) (today : String) (r : ℤ) :
    (∀ f ∈ (Nasa.to_geojson hexs year scenario ssp).features,
      ∃ hd ∈ hexs, f.ring = boundary_to_ring hd.boundary)
    ∧ (∀ f ∈ (UHI.to_geojson uhexs date today r).features,
      ∃ hd ∈ uhexs, f.ring = boundary_to_ring hd.boundary)
    ∧ (∀ boundary : List LatLng, boundary ≠ [] →
        boundary_to_ring boundary =
          boundary.map (fun v => (v.2, v.1)) ++ [(boundary.headI.2, boundary.headI.1)]
        ∧ (boundary_to_ring boundary).head? = (boundary_to_ring boundary).getLast?) := by
  refine ⟨?_, ?_, ?_⟩
  · intro f hf
    simp only [Nasa.to_geojson, List.mem_map] at hf
    obtain ⟨hd, hhd, rfl⟩ := hf
    exact ⟨hd, hhd, rfl⟩
  · intro f hf
    simp only [UHI.to_geojson, List.mem_map] at hf
    obtain ⟨hd, hhd, rfl⟩ := hf
    exact ⟨hd, hhd, rfl⟩
  · intro boundary hne
    match boundary with
    | [] => exact absurd rfl hne
    | v :: vs =>
      refine ⟨rfl, ?_⟩
      show (((v.2, v.1) :: vs.map (fun u => (u.2, u.1))) ++ [(v.2, v.1)]).head? =
        (((v.2, v.1) :: vs.map (fun u => (u.2, u.1))) ++ [(v.2, v.1)]).getLast?
      rw [List.getLast?_concat]
      rfl

/-- Witness for C4 at a concrete three-vertex boundary and a concrete
emitted feature. -/
theorem C4_ring_closed_lonlat_witness :
    (∃ hd ∈ [(⟨9, 1, 2, [(1, 2), (3, 4), (5, 6)], 0, 0⟩ : Nasa.HexagonDatum)],
      ((Nasa.to_geojson [⟨9, 1, 2, [(1, 2), (3, 4), (5, 6)], 0, 0⟩] 2050 "rcp45"
        "ssp245").features.headI).ring = boundary_to_ring hd.boundary)
    ∧ boundary_to_ring [((1 : ℚ), (2 : ℚ)), (3, 4), (5, 6)] =
        ([((1 : ℚ), (2 : ℚ)), (3, 4), (5, 6)].map (fun v => (v.2, v.1))) ++
          [(([((1 : ℚ), (2 : ℚ)), (3, 4), (5, 6)].headI).2,
            ([((1 : ℚ), (2 : ℚ)), (3, 4), (5, 6)].headI).1)]
    ∧ (boundary_to_ring [((1 : ℚ), (2 : ℚ)), (3, 4), (5, 6)]).head? =
        (boundary_to_ring [((1 : ℚ), (2 : ℚ)), (3, 4), (5, 6)]).getLast? := by
  have h := C4_ring_closed_lonlat [⟨9, 1, 2, [(1, 2), (3, 4), (5, 6)], 0, 0⟩]
    2050 "rcp45" "ssp245" [] none "" 0
  have hb := h.2.2 [((1 : ℚ), (2 : ℚ)), (3, 4), (5, 6)] (by simp)
  refine ⟨h.1 _ ?_, hb.1, hb.2⟩
  simp [Nasa.to_geojson, List.headI]

/-- C5 counterexample: a request at the out-of-range resolution 20 does
not fail with an InvalidResolution error - the heat-island service
silently clamps it to 15 and proceeds, emitting a normal FeatureCollection
that records the clamped resolution. -/
theorem C5_clamp_counterexample :
    UHI.clamp_resolution 20 = 15
    ∧ (UHI.get_heat_island_data true true [7] demo_ctl demo_ctb
        (fun _ => .ok (some 2)) none "2026-01-01" 20).1.metadata =
      .ok "2026-01-01" 15 1 "Yale YCEO Urban Heat Island (Summer UHI v4)"
    ∧ ((UHI.get_heat_island_data true true [7] demo_ctl demo_ctb
        (fun _ => .ok (some 2)) none "2026-01-01" 20).1.features.map
        (fun f => f.props.hex_id) = [7]) := by
  refine ⟨by decide, ?_, ?_⟩ <;>
    simp [UHI.get_heat_island_data, UHI.sample_cells, UHI.to_geojson,
      UHI.clamp_resolution]

/-- C5 (as amended): the HTTP layer is what rejects an out-of-range
resolution (outside 1..10, with a descriptive 400 error); the heat-island
service itself never fails on resolution - it silently clamps the value
into [0, 15] and proceeds. -/
theorem C5_clamp_amended (north south east west : ℚ) (year : ℤ)
    (scenario : String) (r : ℤ) (ids : List HexId) (ctl : HexId → LatLng)
    (ctb : HexId → List LatLng) (sampler : HexId → Except String (Option ℚ))
    (date : Option String) (today : String) :
    (¬(1 ≤ r ∧ r ≤ 10) →
      (-90 ≤ south ∧ south < north ∧ north ≤ 90) →
      (-180 ≤ west ∧ west < east ∧ east ≤ 180) →
      (2020 ≤ year ∧ year ≤ 2100) →
      (scenario = "rcp26" ∨ scenario = "rcp45" ∨ scenario = "rcp85") →
      Server.validate_temperature_request north south east west year scenario r =
        some "Resolution must be between 1 and 10")
    ∧ ((UHI.get_heat_island_data true true ids ctl ctb sampler date today r).1.metadata =
        .ok (date.getD today) (UHI.clamp_resolution r)
          (UHI.sample_cells ctl ctb sampler ids).1.length
          "Yale YCEO Urban Heat Island (Summer UHI v4)") := by
  constructor
  · intro hr h1 h2 h3 h4
    simp [Server.validate_temperature_request, h1, h2, h3, h4, hr]
  · simp [UHI.get_heat_island_data, UHI.to_geojson]

/-- Witness for C5 at resolution 20 on otherwise valid parameters. -/
theorem C5_clamp_amended_witness :
    Server.validate_temperature_request 41 40 (-73) (-75) 2050 "rcp45" 20 =
      some "Resolution must be between 1 and 10"
    ∧ ((UHI.get_heat_island_data true true [] demo_ctl demo_ctb
        (fun _ => .ok none) none "t" 20).1.metadata =
      .ok "t" (UHI.clamp_resolution 20)
        (UHI.sample_cells demo_ctl demo_ctb (fun _ => .ok none) []).1.length
        "Yale YCEO Urban Heat Island (Summer UHI v4)") := by
  have h := C5_clamp_amended 41 40 (-73) (-75) 2050 "rcp45" 20 []
    demo_ctl demo_ctb (fun _ => .ok none) none "t"
  exact ⟨h.1 (by decide) (by norm_num) (by norm_num) (by decide) (by simp), h.2⟩

end ClimateStudio

namespace ClimateStudio

/-- C6 counterexample: with Earth Engine reachable but every per-city
fetch failing, the metro-humidity service returns a normal-looking
FeatureCollection silently filled with synthetic fallback metrics - the
failure does not propagate to the caller. -/
theorem C6_fallback_counterexample :
    ((Metro.get_metro_humidity_projections true 2050 (fun _ => none)).name =
      "Metro Humidity Statistics")
    ∧ ((Metro.get_metro_humidity_projections true 2050 (fun _ => none)).features.map
        (fun f => f.metrics) = List.replicate 8 (Metro.get_fallback_metrics 2050))
    ∧ Metro.get_fallback_metrics 2050 = ⟨57, 22, 125, 50⟩ := by
  refine ⟨rfl, ?_, ?_⟩
  · simp [Metro.get_metro_humidity_projections, Metro.fetch_climate_data,
      Metro.METRO_CITIES, List.replicate]
  · norm_num [Metro.get_fallback_metrics, Metro.year_factor, py_int]

/-- C6 (as amended): the NASA temperature pipeline re-raises a reducer
failure unmodified (the request context is logged, and the error reaches
the caller); but the metro-humidity service silently substitutes synthetic
fallback metrics for failed fetches (and a complete fallback dataset when
uninitialized), and the heat-island service returns an empty
FeatureCollection instead of an error when its dataset access fails. -/
theorem C6_error_propagation (b : Bounds) (year : ℤ) (scenario : String)
    (r : ℤ) (image_count : ℕ) (generate : Bounds → ℤ → List HexId)
    (msg : String) (ctl : HexId → LatLng) (ctb : HexId → List LatLng)
    (fetch : Metro.City → Option Metro.Metrics) (ids : List HexId)
    (sampler : HexId → Except String (Option ℚ)) (date : Option String)
    (today : String) :
    (¬ approx_hex_count b r > max_hexagons → image_count ≠ 0 →
      Nasa.get_temperature_projection true b year scenario r image_count
          generate (fun _ => .error msg) ctl ctb =
        (.error (.reducerFailed msg), 1))
    ∧ ((Metro.get_metro_humidity_projections true year fetch).features =
        Metro.METRO_CITIES.map (fun c =>
          ⟨c.name, c.lat, c.lng, year, (fetch c).getD (Metro.get_fallback_metrics year)⟩))
    ∧ (Metro.get_metro_humidity_projections false year fetch =
        Metro.get_fallback_data year)
    ∧ (UHI.get_heat_island_data true false ids ctl ctb sampler date today r =
        (UHI.empty_geojson, 0)) := by
  refine ⟨?_, ?_, rfl, rfl⟩
  · intro h hic
    simp [Nasa.get_temperature_projection, h, hic, Nasa.bind_and_assemble]
  · simp [Metro.get_metro_humidity_projections, Metro.fetch_climate_data]

/-- Witness for C6: a concrete accepted request whose reducer fails
re-raises the failure. -/
theorem C6_error_propagation_witness :
    Nasa.get_temperature_projection true ⟨1, 0, 1, 0⟩ 2050 "rcp45" 5 1
        (fun _ _ => []) (fun _ => .error "EE down") demo_ctl demo_ctb =
      (.error (.reducerFailed "EE down"), 1) := by
  exact (C6_error_propagation ⟨1, 0, 1, 0⟩ 2050 "rcp45" 5 1 (fun _ _ => [])
    "EE down" demo_ctl demo_ctb (fun _ => none) [] (fun _ => .ok none) none "").1
    (by norm_num [approx_hex_count, bbox_area_km2, lat_span, lon_span,
      resolution_area_km2, max_hexagons])
    (by decide)

/-- Every datum kept by the NASA filtering pass stems from an input
feature with a present reducer value. -/
theorem nasa_filter_mem (ctl : HexId → LatLng) (ctb : HexId → List LatLng)
    (feats : List EEFeature) :
    ∀ hd ∈ (Nasa.filter_features ctl ctb feats).1,
      ∃ ef ∈ feats, ∃ k, ef.mean = some k ∧ hd = Nasa.mk_datum ctl ctb ef.hexId k := by
  induction feats with
  | nil => intro hd h; simp [Nasa.filter_features] at h
  | cons f rest ih =>
    intro hd h
    cases hm : f.mean with
    | none =>
      simp only [Nasa.filter_features, hm] at h
      obtain ⟨ef, hef, hk⟩ := ih hd h
      exact ⟨ef, List.mem_cons_of_mem f hef, hk⟩
    | some k =>
      simp only [Nasa.filter_features, hm, List.mem_cons] at h
      rcases h with h | h
      · exact ⟨f, List.mem_cons_self f rest, k, hm, h⟩
      · obtain ⟨ef, hef, hk⟩ := ih hd h
        exact ⟨ef, List.mem_cons_of_mem f hef, hk⟩

/-- Every datum kept by the GRACE filtering pass stems from an input
feature resolved by both reducers. -/
theorem grace_filter_mem (ctl : HexId → LatLng) (ctb : HexId → List LatLng)
    (change_dict : HexId → Option ℚ) (trend_feats : List Grace.TrendFeature) :
    ∀ hd ∈ (Grace.filter_features ctl ctb change_dict trend_feats).1,
      ∃ tf ∈ trend_feats, ∃ t, tf.mean = some t ∧
        hd.hex_id = tf.hexId ∧ hd.status = Grace.classify_depletion t := by
  induction trend_feats with
  | nil => intro hd h; simp [Grace.filter_features] at h
  | cons f rest ih =>
    intro hd h
    cases hm : f.mean with
    | none =>
      simp only [Grace.filter_features, hm] at h
      obtain ⟨tf, htf, ht⟩ := ih hd h
      exact ⟨tf, List.mem_cons_of_mem f htf, ht⟩
    | some t =>
      cases hc : change_dict f.hexId with
      | none =>
        simp only [Grace.filter_features, hm, hc] at h
        obtain ⟨tf, htf, ht⟩ := ih hd h
        exact ⟨tf, List.mem_cons_of_mem f htf, ht⟩
      | some total =>
        simp only [Grace.filter_features, hm, hc, List.mem_cons] at h
        rcases h with h | h
        · exact ⟨f, List.mem_cons_self f rest, t, hm, by rw [h], by rw [h]⟩
        · obtain ⟨tf, htf, ht⟩ := ih hd h
          exact ⟨tf, List.mem_cons_of_mem f htf, ht⟩

/-- C7: every result that carries `isRealData` sets it to `true` exactly
on the real-data paths: the NASA conversion stamps `isRealData = true` on
a FeatureCollection in which every feature's value is derived from that
cell's own reducer value; the GRACE conversion likewise; and the merged
all-aquifer endpoint result only re-wraps the per-aquifer real-data
features.  (The fallback paths - metro fallback data and the heat-island
empty collection - carry no `isRealData` entry at all.) -/
theorem C7_isRealData_provenance (ctl : HexId → LatLng)
    (ctb : HexId → List LatLng) (feats : List EEFeature) (year : ℤ)
    (scenario ssp : String) (trend_feats : List Grace.TrendFeature)
    (change_dict : HexId → Option ℚ) (aq : String)
    (results : List Grace.FeatureCollection) :
    ((Nasa.convert_hexagon_features_to_geojson ctl ctb feats year scenario
        ssp).metadata.isRealData = true)
    ∧ (∀ f ∈ (Nasa.convert_hexagon_features_to_geojson ctl ctb feats year
        scenario ssp).features,
        ∃ ef ∈ feats, ∃ k, ef.mean = some k ∧ f.props.hexId = ef.hexId ∧
          f.props.tempAnomaly = py_round (k - 273.15 - BASELINE_TEMP_C) 2)
    ∧ ((Grace.convert_to_geojson ctl ctb trend_feats change_dict
        aq).metadata.isRealData = true)
    ∧ (∀ f ∈ (Grace.convert_to_geojson ctl ctb trend_feats change_dict
        aq).features,
        ∃ tf ∈ trend_feats, ∃ t, tf.mean = some t ∧ f.props.hexId = tf.hexId ∧
          f.props.status = Grace.classify_depletion t)
    ∧ ((Server.groundwater_all_merge results).2.isRealData = true
        ∧ (Server.groundwater_all_merge results).1 =
          (results.map (fun fc => fc.features)).flatten) := by
  refine ⟨rfl, ?_, rfl, ?_, rfl, rfl⟩
  · intro f hf
    simp only [Nasa.convert_hexagon_features_to_geojson, Nasa.to_geojson,
      List.mem_map] at hf
    obtain ⟨hd, hhd, rfl⟩ := hf
    obtain ⟨ef, hef, k, hk, rfl⟩ := nasa_filter_mem ctl ctb feats hd hhd
    exact ⟨ef, hef, k, hk, rfl, rfl⟩
  · intro f hf
    simp only [Grace.convert_to_geojson, Grace.to_geojson, List.mem_map] at hf
    obtain ⟨hd, hhd, rfl⟩ := hf
    obtain ⟨tf, htf, t, ht, hid, hst⟩ :=
      grace_filter_mem ctl ctb change_dict trend_feats hd hhd
    exact ⟨tf, htf, t, ht, hid, hst⟩

/-- Witness for C7: a concrete one-cell batch, its emitted feature traced
back to the reducer value 280 K. -/
theorem C7_isRealData_provenance_witness :
    (Nasa.convert_hexagon_features_to_geojson demo_ctl demo_ctb
        [⟨3, some 280⟩] 2050 "rcp45" "ssp245").metadata.isRealData = true
    ∧ (∃ ef ∈ [(⟨3, some 280⟩ : EEFeature)], ∃ k, ef.mean = some k ∧
        ((Nasa.convert_hexagon_features_to_geojson demo_ctl demo_ctb
          [⟨3, some 280⟩] 2050 "rcp45" "ssp245").features.headI).props.hexId = ef.hexId ∧
        ((Nasa.convert_hexagon_features_to_geojson demo_ctl demo_ctb
          [⟨3, some 280⟩] 2050 "rcp45" "ssp245").features.headI).props.tempAnomaly =
          py_round (k - 273.15 - BASELINE_TEMP_C) 2) := by
  have h := C7_isRealData_provenance demo_ctl demo_ctb [⟨3, some 280⟩] 2050
    "rcp45" "ssp245" [] (fun _ => none) "viewport" []
  refine ⟨h.1, h.2.1 _ ?_⟩
  simp [Nasa.convert_hexagon_features_to_geojson, Nasa.to_geojson,
    Nasa.filter_features, List.headI]

end ClimateStudio

namespace ClimateStudio

/-- The heat-island sampling loop calls the external sampler once per
generated cell. -/
theorem uhi_sample_count (ctl : HexId → LatLng) (ctb : HexId → List LatLng)
    (sampler : HexId → Except String (Option ℚ)) (ids : List HexId) :
    (UHI.sample_cells ctl ctb sampler ids).2 = ids.length := by
  induction ids with
  | nil => rfl
  | cons h rest ih =>
    cases hs : sampler h with
    | error e => simp [UHI.sample_cells, hs, ih]
    | ok v => cases v <;> simp [UHI.sample_cells, hs, ih]

/-- C8 counterexample: the heat-island binder's number of external calls
is not constant - it equals the generated cell count (3 cells make 3
calls, 5 cells make 5 calls). -/
theorem C8_per_cell_counterexample :
    (UHI.get_heat_island_data true true [0, 1, 2] demo_ctl demo_ctb
        (fun _ => .ok (some 1)) none "d" 8).2 = 3
    ∧ (UHI.get_heat_island_data true true [0, 1, 2, 3, 4] demo_ctl demo_ctb
        (fun _ => .ok (some 1)) none "d" 8).2 = 5 := by
  constructor <;> simp [UHI.get_heat_island_data, UHI.sample_cells]

/-- C8 (as amended): the NASA temperature pipeline invokes the injected
batched reducer exactly once per request, independently of the generated
cell count; the heat-island service instead samples the external image
once per generated cell, so its external call count grows linearly with
the cell count. -/
theorem C8_batching (b : Bounds) (year : ℤ) (scenario : String) (r : ℤ)
    (image_count : ℕ) (generate : Bounds → ℤ → List HexId)
    (reduce_regions : List HexId → Except String (List EEFeature))
    (ctl : HexId → LatLng) (ctb : HexId → List LatLng) (ids : List HexId)
    (sampler : HexId → Except String (Option ℚ)) (date : Option String)
    (today : String) :
    (¬ approx_hex_count b r > max_hexagons → image_count ≠ 0 →
      (Nasa.get_temperature_projection true b year scenario r image_count
        generate reduce_regions ctl ctb).2 = 1)
    ∧ ((UHI.get_heat_island_data true true ids ctl ctb sampler date today
        r).2 = ids.length) := by
  constructor
  · intro h hic
    simp only [Nasa.get_temperature_projection, Bool.true_eq_false, if_false,
      if_neg h, if_neg hic]
    rcases hred : reduce_regions (generate (Nasa.buffered_bounds b r) r) with msg | feats
    · simp [Nasa.bind_and_assemble, hred]
    · by_cases hl : feats.length = 0 <;> simp [Nasa.bind_and_assemble, hred, hl]
  · simp [UHI.get_heat_island_data, uhi_sample_count]

/-- Witness for C8: a concrete accepted request makes exactly one batched
reducer call even with 10000 generated cells. -/
theorem C8_batching_witness :
    (Nasa.get_temperature_projection true ⟨1, 0, 1, 0⟩ 2050 "rcp45" 5 1
        (fun _ _ => List.range 10000) (fun _ => .ok [⟨0, some 280⟩])
        demo_ctl demo_ctb).2 = 1 := by
  exact (C8_batching ⟨1, 0, 1, 0⟩ 2050 "rcp45" 5 1 (fun _ _ => List.range 10000)
    (fun _ => .ok [⟨0, some 280⟩]) demo_ctl demo_ctb [] (fun _ => .ok none)
    none "").1
    (by norm_num [approx_hex_count, bbox_area_km2, lat_span, lon_span,
      resolution_area_km2, max_hexagons])
    (by decide)

/-- Every entry of the `buffer_factors` table lies between 25% and 100%. -/
theorem buffer_factors_range (res : ℤ) :
    1/4 ≤ Nasa.buffer_factors res ∧ Nasa.buffer_factors res ≤ 1 := by
  unfold Nasa.buffer_factors
  split_ifs <;> norm_num

set_option maxHeartbeats 1000000 in
/-- C9: the governor validates the caller's unbuffered bounds while cells
are generated from bounds expanded on every side by a resolution-dependent
buffer factor between 25% and 100% of the span (100% at resolutions 1 and
2; latitude clamped to [-90, 90], longitude not clamped), which multiplies
the covered area by up to 9; so there is an accepted input - resolution 2,
a 30°×350° viewport - whose buffered generation area corresponds to more
than `max_hexagons` cells by the code's own cell-count estimate. -/
theorem C9_buffered_generation_mismatch (b : Bounds) (r : ℤ) (year : ℤ)
    (scenario : String) (image_count : ℕ) (generate : Bounds → ℤ → List HexId)
    (reduce_regions : List HexId → Except String (List EEFeature))
    (ctl : HexId → LatLng) (ctb : HexId → List LatLng) :
    Nasa.buffer_factors 1 = 1
    ∧ Nasa.buffer_factors 2 = 1
    ∧ (∀ res : ℤ, 1/4 ≤ Nasa.buffer_factors res ∧ Nasa.buffer_factors res ≤ 1)
    ∧ ((Nasa.buffered_bounds b r).north ≤ 90
        ∧ -90 ≤ (Nasa.buffered_bounds b r).south
        ∧ (Nasa.buffered_bounds b r).east = b.east + lon_span b * Nasa.buffer_factors r
        ∧ (Nasa.buffered_bounds b r).west = b.west - lon_span b * Nasa.buffer_factors r)
    ∧ (b.north + lat_span b * Nasa.buffer_factors r ≤ 90 →
        -90 ≤ b.south - lat_span b * Nasa.buffer_factors r →
        Nasa.buffer_factors r = 1 →
        bbox_area_km2 (Nasa.buffered_bounds b r) = 9 * bbox_area_km2 b)
    ∧ (¬ approx_hex_count b r > max_hexagons → image_count ≠ 0 →
        Nasa.get_temperature_projection true b year scenario r image_count
            generate reduce_regions ctl ctb =
          Nasa.bind_and_assemble ctl ctb
            (generate (Nasa.buffered_bounds b r) r) reduce_regions year
            scenario (scenarios_map scenario))
    ∧ exceptOk (estimate_and_validate ⟨15, -15, 175, -175⟩ 2) = true
    ∧ approx_hex_count (Nasa.buffered_bounds ⟨15, -15, 175, -175⟩ 2) 2 >
        max_hexagons := by
  refine ⟨by norm_num [Nasa.buffer_factors], by norm_num [Nasa.buffer_factors],
    buffer_factors_range, ⟨min_le_left _ _, le_max_left _ _, rfl, rfl⟩,
    ?_, ?_, ?_, ?_⟩
  · intro h1 h2 h3
    rw [h3, mul_one] at h1 h2
    simp only [lat_span] at h1 h2
    simp only [Nasa.buffered_bounds, h3, mul_one, bbox_area_km2, lat_span,
      lon_span]
    rw [min_eq_right h1, max_eq_right h2]
    ring
  · intro h hic
    simp [Nasa.get_temperature_projection, h, hic]
  · norm_num [estimate_and_validate, exceptOk, approx_hex_count,
      bbox_area_km2, lat_span, lon_span, resolution_area_km2, max_hexagons]
  · norm_num [Nasa.buffered_bounds, Nasa.buffer_factors, approx_hex_count,
      bbox_area_km2, lat_span, lon_span, resolution_area_km2, max_hexagons,
      min_def, max_def]

/-- Witness for C9: the 100%-buffer area growth at a concrete clamp-free
box, and a concrete accepted 30°×350° request at resolution 2 whose
generation proceeds from the buffered bounds. -/
theorem C9_buffered_generation_mismatch_witness :
    bbox_area_km2 (Nasa.buffered_bounds ⟨10, -10, 20, -20⟩ 1) =
      9 * bbox_area_km2 ⟨10, -10, 20, -20⟩
    ∧ Nasa.get_temperature_projection true ⟨15, -15, 175, -175⟩ 2050 "rcp45" 2 1
        (fun _ _ => []) (fun _ => .ok []) demo_ctl demo_ctb =
      Nasa.bind_and_assemble demo_ctl demo_ctb
        ((fun _ _ => ([] : List HexId)) (Nasa.buffered_bounds ⟨15, -15, 175, -175⟩ 2) 2)
        (fun _ => .ok []) 2050 "rcp45" (scenarios_map "rcp45") := by
  have h1 := C9_buffered_generation_mismatch ⟨10, -10, 20, -20⟩ 1 2050 "rcp45"
    1 (fun _ _ => []) (fun _ => .ok []) demo_ctl demo_ctb
  have h2 := C9_buffered_generation_mismatch ⟨15, -15, 175, -175⟩ 2 2050
    "rcp45" 1 (fun _ _ => []) (fun _ => .ok []) demo_ctl demo_ctb
  refine ⟨h1.2.2.2.2.1 ?_ ?_ ?_, h2.2.2.2.2.2.1 ?_ (by decide)⟩
  · norm_num [lat_span, Nasa.buffer_factors]
  · norm_num [lat_span, Nasa.buffer_factors]
  · norm_num [Nasa.buffer_factors]
  · norm_num [approx_hex_count, bbox_area_km2, lat_span, lon_span,
      resolution_area_km2, max_hexagons]

end ClimateStudio

namespace ClimateStudio

/-- On fully-resolved demo reducers, the viewport pipeline emits exactly
the (possibly sampled) generated ids. -/
theorem grace_viewport_demo_ids (ctl : HexId → LatLng)
    (ctb : HexId → List LatLng) (ids : List HexId)
    (sample : List HexId → List HexId) :
    (match Grace.get_groundwater_depletion_viewport true ids sample
        demo_trend_reducer demo_change_reducer ctl ctb with
      | .ok fc => fc.features.map (fun f => f.props.hexId)
      | .error _ => []) = Grace.limit_hexagons sample ids := by
  simp only [Grace.get_groundwater_depletion_viewport, demo_trend_reducer,
    demo_change_reducer, Bool.true_eq_false, if_false]
  rw [Grace.convert_to_geojson, grace_to_geojson_hexIds, grace_filter_hexIds]
  simp [List.filter_map, List.map_map, Function.comp_def]

/-- C10: the groundwater viewport operation has no pre-generation size
governor (any generated id set proceeds to binding); whenever more than
5000 cells were generated it binds a `random.sample` of exactly 5000 of
them, so two valid sampling outcomes on the same 5001-cell input yield
different outputs (the operation is not deterministic), and a generated
in-viewport cell (id 0) can be missing from the output. -/
theorem C10_viewport_sampling (hex_ids : List HexId)
    (sample : List HexId → List HexId) (ctl : HexId → LatLng)
    (ctb : HexId → List LatLng) :
    (hex_ids.length ≤ 5000 → Grace.limit_hexagons sample hex_ids = hex_ids)
    ∧ (hex_ids.length > 5000 →
        Grace.limit_hexagons sample hex_ids = sample hex_ids)
    ∧ (exceptOk (Grace.get_groundwater_depletion_viewport true hex_ids sample
        demo_trend_reducer demo_change_reducer ctl ctb) = true)
    ∧ Grace.ValidSample ids5001 (sample_take ids5001)
    ∧ Grace.ValidSample ids5001 (sample_drop ids5001)
    ∧ Grace.limit_hexagons sample_take ids5001 ≠
        Grace.limit_hexagons sample_drop ids5001
    ∧ Grace.get_groundwater_depletion_viewport true ids5001 sample_take
        demo_trend_reducer demo_change_reducer ctl ctb ≠
      Grace.get_groundwater_depletion_viewport true ids5001 sample_drop
        demo_trend_reducer demo_change_reducer ctl ctb
    ∧ (0 ∈ ids5001 ∧ 0 ∉ Grace.limit_hexagons sample_drop ids5001) := by
  have hlen : ids5001.length = 5001 := by simp [ids5001]
  have hgt : ids5001.length > 5000 := by rw [hlen]; omega
  have hrange : ids5001 = 0 :: (List.range 5000).map Nat.succ := by
    rw [ids5001, List.range_succ_eq_map]
  have htake : (sample_take ids5001).head? = some 0 := by
    rw [sample_take, hrange, show (5000 : ℕ) = 4999 + 1 from rfl,
      List.take_succ_cons]
    rfl
  have hdrop0 : sample_drop ids5001 = (List.range 5000).map Nat.succ := by
    rw [sample_drop, hrange]
    rfl
  have hdrop : (sample_drop ids5001).head? = some 1 := by
    rw [hdrop0, List.head?_map, List.range_succ_eq_map]
    rfl
  have hlim_take : Grace.limit_hexagons sample_take ids5001 = sample_take ids5001 := by
    simp [Grace.limit_hexagons, hgt]
  have hlim_drop : Grace.limit_hexagons sample_drop ids5001 = sample_drop ids5001 := by
    simp [Grace.limit_hexagons, hgt]
  have hne : Grace.limit_hexagons sample_take ids5001 ≠
      Grace.limit_hexagons sample_drop ids5001 := by
    rw [hlim_take, hlim_drop]
    intro heq
    have := congrArg List.head? heq
    rw [htake, hdrop] at this
    simp at this
  refine ⟨?_, ?_, ?_, ?_, ?_, hne, ?_, ?_, ?_⟩
  · intro h
    simp [Grace.limit_hexagons, Nat.not_lt.mpr h]
  · intro h
    simp [Grace.limit_hexagons, h]
  · simp [Grace.get_groundwater_depletion_viewport, demo_trend_reducer,
      demo_change_reducer, exceptOk]
  · refine ⟨?_, List.take_subset _ _⟩
    simp [sample_take, ids5001]
  · refine ⟨?_, List.drop_subset _ _⟩
    simp [sample_drop, ids5001]
  · intro heq
    have h := congrArg (fun res =>
      (match res with
        | .ok fc => fc.features.map
            (fun f => (f : Grace.Feature).props.hexId)
        | .error _ => ([] : List HexId))) heq
    simp only [grace_viewport_demo_ids] at h
    exact hne h
  · simp [ids5001]
  · rw [hlim_drop, hdrop0]
    simp

/-- Witness for C10: the cap is the identity on a small id set and defers
to the sampling choice on the 5001-cell set. -/
theorem C10_viewport_sampling_witness :
    Grace.limit_hexagons sample_take [3] = [3]
    ∧ Grace.limit_hexagons sample_take ids5001 = sample_take ids5001 := by
  refine ⟨(C10_viewport_sampling [3] sample_take demo_ctl demo_ctb).1 (by simp),
    (C10_viewport_sampling ids5001 sample_take demo_ctl demo_ctb).2.1 ?_⟩
  simp [ids5001]

end ClimateStudio
